import Mathlib

/-!
Verification of `gdpc/http_interface.py`: a shallow embedding of the
`HTTPInterface` endpoint wrappers and of the retrying call helper, with
theorems settling the specified behavioural properties.

Modelling conventions:
* Python exceptions become the `PyError` inductive; fallible code returns
  `Except PyError _`.
* A JSON value is the `JValue` inductive; a parsed-or-unparseable body is
  `Option JValue` on the response record.
* The `requests` library drops query parameters whose value is `None`;
  parameter dicts are therefore `List (String × Option PValue)` in source
  order, and `sentParams` performs the drop the library applies.
* The network is an oracle: either a per-attempt outcome function
  `Nat → Except PyError Response` (for retry behaviour), or a single
  `Response` handed to the decoding phase.
-/

namespace Gdpc

/-- Python exception classes relevant to the module. `connectionError`
corresponds to `requests.exceptions.ConnectionError` (a transient
connection-level failure); the others are non-connection failures raised
while decoding responses. -/
inductive PyError
  | connectionError (msg : String)
  | jsonDecodeError
  | keyError (key : String)
  | typeError
  deriving DecidableEq, Repr

/-- Whether an exception is a transient connection-level failure, the class
the retry helper catches. -/
def PyError.isConnectionError : PyError → Bool
  | .connectionError _ => true
  | _ => false

/-- A scalar query-parameter value, as serialised by `requests`. -/
inductive PValue
  | int (i : Int)
  | bool (b : Bool)
  | str (s : String)
  deriving DecidableEq, Repr

/-- A Python parameter dict in source order; `none` values are present in
the dict but dropped by the `requests` library before sending. -/
abbrev Params := List (String × Option PValue)

/-- The query parameters actually sent: `requests` omits entries whose
value is `None`. -/
def sentParams (ps : Params) : List (String × PValue) :=
  ps.filterMap (fun p => p.2.map (fun v => (p.1, v)))

/-- HTTP verb used by an endpoint method. -/
inductive Verb
  | get
  | put
  | post
  deriving DecidableEq, Repr

/-- The request an endpoint method constructs: verb, URL, parameter dict,
headers, and optional UTF-8 text body. -/
structure Request where
  verb : Verb
  url : String
  params : Params
  headers : List (String × String)
  body : Option String
  deriving DecidableEq, Repr

/-- A JSON value, for modelling `response.json()` results. -/
inductive JValue
  | null
  | bool (b : Bool)
  | int (i : Int)
  | str (s : String)
  | arr (elems : List JValue)
  | obj (fields : List (String × JValue))

/-- A `requests` response: status code, decoded text body, parsed JSON body
(`none` when the body is not valid JSON), and raw content bytes. -/
structure Response where
  statusCode : Nat
  text : String
  json : Option JValue
  content : List Nat

/-- `response.ok` in `requests`: true exactly when the status code is below
400. -/
def Response.ok (r : Response) : Bool := r.statusCode < 400

/-- `response.json()`: returns the parsed body or raises a JSON decode
error. -/
def Response.jsonE (r : Response) : Except PyError JValue :=
  match r.json with
  | some j => .ok j
  | none => .error .jsonDecodeError

/-- Modelled from the spec: `withRetries` from `gdpc.utility`, which is not
under `src/` (only its caller `_get`/`_put`/`_post` is). Contract per the
spec: execute the operation; if it raises a transient connection-level
failure, invoke the notification callback with the exception and the
remaining retry count, pause, and retry; after the retry budget is
exhausted, propagate the final failure. Non-connection failures surface
immediately.

The operation is `f : Nat → Except PyError α`, indexed by attempt number so
that an operation may behave differently per invocation. The result records
the observable trace: `(number of invocations of f, callback invocation
list (exception, retries left), final outcome)`. -/
def withRetries (f : Nat → Except PyError α) (retries : Nat) (attempt : Nat) :
    Nat × List (PyError × Nat) × Except PyError α :=
  match f attempt with
  | .ok a => (1, [], .ok a)
  | .error e =>
    if e.isConnectionError then
      match retries with
      | 0 => (1, [], .error e)
      | r + 1 =>
        let rest := withRetries f r (attempt + 1)
        (rest.1 + 1, (e, r + 1) :: rest.2.1, rest.2.2)
    else (1, [], .error e)

/-- On an operation that fails with the same connection error on every
attempt, `withRetries` with budget `N` starting at any attempt index makes
`N + 1` invocations, fires the callback with `(e, N), (e, N-1), …, (e, 1)`,
and ends with the error. -/
lemma withRetries_const_fail {α : Type} (e : PyError)
    (h : e.isConnectionError = true) (N : Nat) : ∀ a : Nat,
    withRetries (fun _ => (.error e : Except PyError α)) N a =
      (N + 1, (List.range N).map (fun i => (e, N - i)), .error e) := by
  induction N with
  | zero =>
    intro a
    simp [withRetries, h]
  | succ n ih =>
    intro a
    rw [withRetries]
    simp only [h, if_true, ih (a + 1)]
    refine Prod.ext rfl (Prod.ext ?_ rfl)
    show (e, n + 1) :: (List.range n).map (fun i => (e, n - i)) =
      (List.range (n + 1)).map (fun i => (e, n + 1 - i))
    rw [List.range_succ_eq_map]
    simp only [List.map_cons, List.map_map, Nat.sub_zero]
    refine congrArg₂ _ rfl ?_
    apply List.map_congr_left
    intro i _
    simp [Function.comp, Nat.succ_sub_succ]

/-- `HTTPInterface.__init__`: the single field `host`, defaulting to
`"http://localhost:9000"`. -/
structure HTTPInterface where
  host : String := "http://localhost:9000"
  deriving DecidableEq, Repr

/-- Request constructed by `HTTPInterface.getBlock` (lines 60-72): the
`/blocks` GET with the parameter dict in source order. `includeState` and
`includeData` map to `True if flag else None`; `dx`, `dy`, `dz` and
`dimension` are passed through (dropped by `requests` when `None`). -/
def getBlockRequest (self : HTTPInterface) (x y z : Int)
    (dx dy dz : Option Int) (dimension : Option String)
    (includeState includeData : Bool) : Request :=
  { verb := .get
    url := self.host ++ "/blocks"
    params := [
      ("x", some (.int x)),
      ("y", some (.int y)),
      ("z", some (.int z)),
      ("dx", dx.map .int),
      ("dy", dy.map .int),
      ("dz", dz.map .int),
      ("includeState", if includeState then some (.bool true) else none),
      ("includeData", if includeData then some (.bool true) else none),
      ("dimension", dimension.map .str)]
    headers := [("accept", "application/json")]
    body := none }

/-- Decoding phase of `getBlock`: `blocks = response.json()`, returned
as-is (the list annotation is not enforced by the code). -/
def getBlockDecode (r : Response) : Except PyError JValue :=
  r.jsonE

/-- Request constructed by `HTTPInterface.placeBlock` (lines 101-110): the
`/blocks` PUT. If `customFlags` is non-empty the block-update params are
`{customFlags}`, otherwise `{doBlockUpdates, spawnDrops}`; the dict is
`{x, y, z}` updated with those. The `dimension` argument is accepted but
never placed in the dict — exactly as in the source, where it is unused. -/
def placeBlockRequest (self : HTTPInterface) (x y z : Int) (blockStr : String)
    (dimension : Option String) (doBlockUpdates spawnDrops : Bool)
    (customFlags : String) : Request :=
  { verb := .put
    url := self.host ++ "/blocks"
    params :=
      [("x", some (.int x)), ("y", some (.int y)), ("z", some (.int z))] ++
      (if customFlags ≠ "" then
        [("customFlags", some (.str customFlags))]
      else
        [("doBlockUpdates", some (.bool doBlockUpdates)),
         ("spawnDrops", some (.bool spawnDrops))])
    headers := []
    body := some blockStr }

/-- Python `text.split("\x5cn")` on the decoded characters: splitting on
every newline, never dropping a field (the empty string yields `[""]`). -/
def splitLinesAux : List Char → List Char → List String
  | [], acc => [String.mk acc.reverse]
  | c :: cs, acc =>
    if c = '\n' then String.mk acc.reverse :: splitLinesAux cs []
    else splitLinesAux cs (c :: acc)

/-- Python `s.split("\x5cn")`. -/
def pySplitNL (s : String) : List String :=
  splitLinesAux s.data []

/-- Decoding phase of `placeBlock`: `response.text.split("\x5cn")`. -/
def placeBlockDecode (r : Response) : List String :=
  pySplitNL r.text

/-- Request constructed by `HTTPInterface.runCommand` (lines 123-124): the
`/command` POST with the command text as body and `dimension` as the only
parameter. -/
def runCommandRequest (self : HTTPInterface) (command : String)
    (dimension : Option String) : Request :=
  { verb := .post
    url := self.host ++ "/command"
    params := [("dimension", dimension.map .str)]
    headers := []
    body := some command }

/-- Decoding phase of `runCommand`: `response.text.split("\x5cn")`. -/
def runCommandDecode (r : Response) : List String :=
  pySplitNL r.text

/-- Request constructed by `HTTPInterface.getBuildArea` (line 136): a bare
GET of `/buildarea`. -/
def getBuildAreaRequest (self : HTTPInterface) : Request :=
  { verb := .get
    url := self.host ++ "/buildarea"
    params := []
    headers := []
    body := none }

/-- Python `obj[key]`: raises `TypeError` when the JSON value is not an
object and `KeyError` when the key is absent. -/
def jsonLookup (j : JValue) (key : String) : Except PyError JValue :=
  match j with
  | .obj fields =>
    match fields.lookup key with
    | some v => .ok v
    | none => .error (.keyError key)
  | _ => .error .typeError

/-- Python `response.json() == -1`. -/
def JValue.isNegOne : JValue → Bool
  | .int i => i = -1
  | _ => false

/-- Decoding phase of `getBuildArea` (lines 138-148). Mirrors the Python
short-circuit: when the status is not ok, `response.json()` is never
called; otherwise the body is parsed, compared against the sentinel `-1`,
and on the success path the six bound fields are looked up in order. -/
def getBuildAreaDecode (r : Response) :
    Except PyError (Bool ×
      ((JValue × JValue × JValue × JValue × JValue × JValue) ⊕ String)) :=
  if r.ok then
    match r.jsonE with
    | .error e => .error e
    | .ok j =>
      if j.isNegOne then .ok (false, .inr r.text)
      else
        match jsonLookup j "xFrom" with
        | .error e => .error e
        | .ok x1 =>
          match jsonLookup j "yFrom" with
          | .error e => .error e
          | .ok y1 =>
            match jsonLookup j "zFrom" with
            | .error e => .error e
            | .ok z1 =>
              match jsonLookup j "xTo" with
              | .error e => .error e
              | .ok x2 =>
                match jsonLookup j "yTo" with
                | .error e => .error e
                | .ok y2 =>
                  match jsonLookup j "zTo" with
                  | .error e => .error e
                  | .ok z2 => .ok (true, .inl (x1, y1, z1, x2, y2, z2))
  else
    .ok (false, .inr r.text)

/-- Request constructed by `HTTPInterface.getChunks` (lines 163-172): the
`/chunks` GET, with the Accept header chosen by `asBytes`. -/
def getChunksRequest (self : HTTPInterface) (x z dx dz : Int)
    (dimension : Option String) (asBytes : Bool) : Request :=
  { verb := .get
    url := self.host ++ "/chunks"
    params := [
      ("x", some (.int x)),
      ("z", some (.int z)),
      ("dx", some (.int dx)),
      ("dz", some (.int dz)),
      ("dimension", dimension.map .str)]
    headers :=
      [("Accept", if asBytes then "application/octet-stream" else "text/plain")]
    body := none }

/-- Decoding phase of `getChunks` (lines 173-176): the first component is
what is printed to standard error (`some` exactly when the status code is
at least 400), the second the returned value — raw content bytes when
`asBytes`, decoded text otherwise. The body is returned in either case. -/
def getChunksDecode (asBytes : Bool) (r : Response) :
    Option String × (List Nat ⊕ String) :=
  ((if r.statusCode ≥ 400 then some ("Error: " ++ r.text) else none),
   if asBytes then .inl r.content else .inr r.text)

/-- Request constructed by `HTTPInterface.getVersion` (line 181): a bare
GET of `/version`. -/
def getVersionRequest (self : HTTPInterface) : Request :=
  { verb := .get
    url := self.host ++ "/version"
    params := []
    headers := []
    body := none }

/-- `getVersion` run against a per-attempt network oracle: `_get(url,
retries)` through `withRetries`, then `.text` on the response. Records the
retry trace along with the outcome. -/
def getVersionRun (net : Nat → Except PyError Response) (retries : Nat) :
    Nat × List (PyError × Nat) × Except PyError String :=
  let r := withRetries net retries 0
  (r.1, r.2.1,
    match r.2.2 with
    | .ok resp => .ok resp.text
    | .error e => .error e)

/-- `HTTPInterface.checkConnection` (lines 184-195), with the supported
version list as a parameter. `Modelled from the spec:` the imported
`SUPPORTED_MINECRAFT_VERSIONS` list from `gdpc.lookup` is not under `src/`;
per the spec it is a fixed supported-version list of strings, so it is
taken here as an arbitrary such list. `getVersion` is called with zero
retries; only a connection-level failure is caught. -/
def checkConnection (supported : List String)
    (net : Nat → Except PyError Response) :
    Except PyError (Bool × Option Bool) :=
  match (getVersionRun net 0).2.2 with
  | .error e =>
    if e.isConnectionError then .ok (false, none) else .error e
  | .ok v => .ok (true, some (supported.contains v))

/-- Full `getBlock` call: the constructed request, the decoded result for
the given response, and the interface record as it stands after the call.
The method body never assigns to `self`, so the record is returned as is. -/
def getBlockM (self : HTTPInterface) (x y z : Int) (dx dy dz : Option Int)
    (dimension : Option String) (includeState includeData : Bool)
    (resp : Response) : (Request × Except PyError JValue) × HTTPInterface :=
  ((getBlockRequest self x y z dx dy dz dimension includeState includeData,
    getBlockDecode resp), self)

/-- Full `placeBlock` call: request, decoded result, and the unmodified
interface record. -/
def placeBlockM (self : HTTPInterface) (x y z : Int) (blockStr : String)
    (dimension : Option String) (doBlockUpdates spawnDrops : Bool)
    (customFlags : String) (resp : Response) :
    (Request × List String) × HTTPInterface :=
  ((placeBlockRequest self x y z blockStr dimension doBlockUpdates
      spawnDrops customFlags, placeBlockDecode resp), self)

/-- Full `runCommand` call: request, decoded result, and the unmodified
interface record. -/
def runCommandM (self : HTTPInterface) (command : String)
    (dimension : Option String) (resp : Response) :
    (Request × List String) × HTTPInterface :=
  ((runCommandRequest self command dimension, runCommandDecode resp), self)

/-- Full `getBuildArea` call: request, decoded result, and the unmodified
interface record. -/
def getBuildAreaM (self : HTTPInterface) (resp : Response) :
    (Request × Except PyError (Bool ×
      ((JValue × JValue × JValue × JValue × JValue × JValue) ⊕ String)))
      × HTTPInterface :=
  ((getBuildAreaRequest self, getBuildAreaDecode resp), self)

/-- Full `getChunks` call: request, stderr log and decoded result, and the
unmodified interface record. -/
def getChunksM (self : HTTPInterface) (x z dx dz : Int)
    (dimension : Option String) (asBytes : Bool) (resp : Response) :
    (Request × (Option String × (List Nat ⊕ String))) × HTTPInterface :=
  ((getChunksRequest self x z dx dz dimension asBytes,
    getChunksDecode asBytes resp), self)

/-- Full `getVersion` call: request, retry trace and outcome, and the
unmodified interface record. -/
def getVersionM (self : HTTPInterface)
    (net : Nat → Except PyError Response) (retries : Nat) :
    (Request × (Nat × List (PyError × Nat) × Except PyError String))
      × HTTPInterface :=
  ((getVersionRequest self, getVersionRun net retries), self)

/-- Full `checkConnection` call: outcome and the unmodified interface
record. -/
def checkConnectionM (self : HTTPInterface) (supported : List String)
    (net : Nat → Except PyError Response) :
    Except PyError (Bool × Option Bool) × HTTPInterface :=
  (checkConnection supported net, self)

/-- Claim C1 (code-bug evaluation): `placeBlock` called at the origin with
block string `"stone"` and the `dimension` argument set to
`"the_nether"` sends exactly the query parameters `x`, `y`, `z`,
`doBlockUpdates`, `spawnDrops` — the set dimension never reaches the
request, contradicting the method's own documentation of the parameter. -/
theorem C1_placeBlock_dimension_dropped :
    sentParams (placeBlockRequest {} 0 0 0 "stone" (some "the_nether")
      true false "").params =
      [("x", .int 0), ("y", .int 0), ("z", .int 0),
       ("doBlockUpdates", .bool true), ("spawnDrops", .bool false)] := by
  decide

/-- Claim C2: for every retry budget `N` and every operation that raises a
transient connection failure on every invocation, the retry wrapper invokes
the operation exactly `N + 1` times, invokes the notification callback
exactly `N` times — the `i`-th invocation with the exception and the
remaining retry count `N - i` — and propagates the final failure. -/
theorem C2_retryWrapperAlwaysFailing {α : Type} (N : Nat) (e : PyError)
    (h : e.isConnectionError = true) :
    (withRetries (fun _ => (.error e : Except PyError α)) N 0).1 = N + 1 ∧
    (withRetries (fun _ => (.error e : Except PyError α)) N 0).2.1 =
      (List.range N).map (fun i => (e, N - i)) ∧
    (withRetries (fun _ => (.error e : Except PyError α)) N 0).2.1.length = N ∧
    (withRetries (fun _ => (.error e : Except PyError α)) N 0).2.2 =
      .error e := by
  rw [withRetries_const_fail e h N 0]
  refine ⟨rfl, rfl, ?_, rfl⟩
  simp

/-- Claim C2 witness: a concrete always-failing operation with budget 2 is
invoked 3 times, fires the callback twice, and ends with the failure. -/
theorem C2_retryWrapperAlwaysFailing_witness :
    (withRetries (fun _ =>
      (.error (.connectionError "down") : Except PyError String)) 2 0).1
        = 2 + 1 ∧
    (withRetries (fun _ =>
      (.error (.connectionError "down") : Except PyError String)) 2 0).2.1 =
      (List.range 2).map (fun i => (.connectionError "down", 2 - i)) ∧
    (withRetries (fun _ =>
      (.error (.connectionError "down") : Except PyError String)) 2 0).2.1.length
        = 2 ∧
    (withRetries (fun _ =>
      (.error (.connectionError "down") : Except PyError String)) 2 0).2.2 =
      .error (.connectionError "down") :=
  C2_retryWrapperAlwaysFailing 2 (.connectionError "down") rfl

/-- Claim C6: a failure that is not a transient connection failure is not
retried: whatever the budget, the wrapper makes exactly one invocation,
performs zero callback invocations, and surfaces the failure as is. -/
theorem C6_nonConnectionFailureNotRetried {α : Type}
    (f : Nat → Except PyError α) (e : PyError) (N : Nat)
    (h1 : f 0 = .error e) (h2 : e.isConnectionError = false) :
    withRetries f N 0 = (1, [], .error e) := by
  unfold withRetries
  rw [h1]
  simp [h2]

/-- Claim C6 witness: a JSON-decoding failure with budget 5 surfaces after
a single invocation and no callbacks. -/
theorem C6_nonConnectionFailureNotRetried_witness :
    withRetries (fun _ => (.error .jsonDecodeError : Except PyError String))
      5 0 = (1, [], .error .jsonDecodeError) :=
  C6_nonConnectionFailureNotRetried _ .jsonDecodeError 5 rfl rfl

/-- Claim C8: an interface constructed without a host argument has host
`"http://localhost:9000"`, and every endpoint method's URL is the
configured host joined with the endpoint's fixed path. -/
theorem C8_defaultHostAndPaths (self : HTTPInterface) (x y z : Int)
    (dx dy dz : Option Int) (dim : Option String)
    (includeState includeData : Bool) (blockStr command : String)
    (doBlockUpdates spawnDrops : Bool) (customFlags : String)
    (cx cz cdx cdz : Int) (asBytes : Bool) :
    ({} : HTTPInterface).host = "http://localhost:9000" ∧
    (getBlockRequest self x y z dx dy dz dim includeState includeData).url =
      self.host ++ "/blocks" ∧
    (placeBlockRequest self x y z blockStr dim doBlockUpdates spawnDrops
      customFlags).url = self.host ++ "/blocks" ∧
    (runCommandRequest self command dim).url = self.host ++ "/command" ∧
    (getBuildAreaRequest self).url = self.host ++ "/buildarea" ∧
    (getChunksRequest self cx cz cdx cdz dim asBytes).url =
      self.host ++ "/chunks" ∧
    (getVersionRequest self).url = self.host ++ "/version" :=
  ⟨rfl, rfl, rfl, rfl, rfl, rfl, rfl⟩

/-- Claim C9: every endpoint method leaves the interface's only field, the
configured host, unchanged: the interface record each call returns is the
one it received. -/
theorem C9_hostUnchanged (self : HTTPInterface) (x y z : Int)
    (dx dy dz : Option Int) (dim : Option String)
    (includeState includeData : Bool) (blockStr command : String)
    (doBlockUpdates spawnDrops : Bool) (customFlags : String)
    (cx cz cdx cdz : Int) (asBytes : Bool) (resp : Response)
    (net : Nat → Except PyError Response) (retries : Nat)
    (supported : List String) :
    (getBlockM self x y z dx dy dz dim includeState includeData
      resp).2.host = self.host ∧
    (placeBlockM self x y z blockStr dim doBlockUpdates spawnDrops
      customFlags resp).2.host = self.host ∧
    (runCommandM self command dim resp).2.host = self.host ∧
    (getBuildAreaM self resp).2.host = self.host ∧
    (getChunksM self cx cz cdx cdz dim asBytes resp).2.host = self.host ∧
    (getVersionM self net retries).2.host = self.host ∧
    (checkConnectionM self supported net).2.host = self.host :=
  ⟨rfl, rfl, rfl, rfl, rfl, rfl, rfl⟩

/-- Claim C3: `getBuildArea` returns `(False, error-text)` exactly when the
HTTP status is non-success or the JSON payload is the sentinel `-1`, and
otherwise returns `(True, t)` with `t` the 6-tuple read from the
`xFrom`/`yFrom`/`zFrom`/`xTo`/`yTo`/`zTo` fields of the response JSON
object. -/
theorem C3_getBuildArea (r : Response) :
    (r.ok = false → getBuildAreaDecode r = .ok (false, .inr r.text)) ∧
    (∀ j : JValue, r.ok = true → r.json = some j → j.isNegOne = true →
      getBuildAreaDecode r = .ok (false, .inr r.text)) ∧
    (∀ res, getBuildAreaDecode r = .ok (false, res) →
      res = .inr r.text ∧
        (r.ok = false ∨ ∃ j, r.json = some j ∧ j.isNegOne = true)) ∧
    (∀ (j v1 v2 v3 v4 v5 v6 : JValue), r.ok = true → r.json = some j →
      j.isNegOne = false →
      jsonLookup j "xFrom" = .ok v1 → jsonLookup j "yFrom" = .ok v2 →
      jsonLookup j "zFrom" = .ok v3 → jsonLookup j "xTo" = .ok v4 →
      jsonLookup j "yTo" = .ok v5 → jsonLookup j "zTo" = .ok v6 →
      getBuildAreaDecode r = .ok (true, .inl (v1, v2, v3, v4, v5, v6))) := by
  refine ⟨?_, ?_, ?_, ?_⟩
  · intro h
    simp [getBuildAreaDecode, h]
  · intro j h1 h2 h3
    simp [getBuildAreaDecode, h1, Response.jsonE, h2, h3]
  · intro res h
    by_cases hok : r.ok = true
    · rw [getBuildAreaDecode, if_pos hok] at h
      cases hj : r.json with
      | none =>
        simp [Response.jsonE, hj] at h
      | some j =>
        simp only [Response.jsonE, hj] at h
        by_cases hneg : j.isNegOne = true
        · rw [if_pos hneg] at h
          cases h
          exact ⟨rfl, Or.inr ⟨j, rfl, hneg⟩⟩
        · rw [if_neg hneg] at h
          cases hx1 : jsonLookup j "xFrom" with
          | error e => simp [hx1] at h
          | ok v1 =>
            simp only [hx1] at h
            cases hy1 : jsonLookup j "yFrom" with
            | error e => simp [hy1] at h
            | ok v2 =>
              simp only [hy1] at h
              cases hz1 : jsonLookup j "zFrom" with
              | error e => simp [hz1] at h
              | ok v3 =>
                simp only [hz1] at h
                cases hx2 : jsonLookup j "xTo" with
                | error e => simp [hx2] at h
                | ok v4 =>
                  simp only [hx2] at h
                  cases hy2 : jsonLookup j "yTo" with
                  | error e => simp [hy2] at h
                  | ok v5 =>
                    simp only [hy2] at h
                    cases hz2 : jsonLookup j "zTo" with
                    | error e => simp [hz2] at h
                    | ok v6 =>
                      simp only [hz2] at h
                      simp at h
    · rw [getBuildAreaDecode, if_neg hok] at h
      cases h
      exact ⟨rfl, Or.inl (by simpa using hok)⟩
  · intro j v1 v2 v3 v4 v5 v6 h1 h2 h3 hx1 hy1 hz1 hx2 hy2 hz2
    simp [getBuildAreaDecode, Response.jsonE, h1, h2, h3, hx1, hy1, hz1,
      hx2, hy2, hz2]

/-- Claim C3 witness: a concrete 200 response carrying all six bound fields
decodes to the success 6-tuple, and a concrete 404 response decodes to the
failure pair. -/
theorem C3_getBuildArea_witness :
    getBuildAreaDecode
      ⟨200, "ba",
        some (.obj [("xFrom", .int 0), ("yFrom", .int 1),
          ("zFrom", .int 2), ("xTo", .int 3), ("yTo", .int 4),
          ("zTo", .int 5)]), []⟩ =
      .ok (true, .inl (.int 0, .int 1, .int 2, .int 3, .int 4, .int 5)) ∧
    getBuildAreaDecode ⟨404, "no build area", none, []⟩ =
      .ok (false, .inr "no build area") :=
  ⟨(C3_getBuildArea _).2.2.2 _ _ _ _ _ _ _ rfl rfl rfl rfl rfl rfl rfl
      rfl rfl,
   (C3_getBuildArea _).1 rfl⟩

/-- Claim C4: `checkConnection` calls `getVersion` with zero retries (one
network invocation); a connection-level failure yields `(False, None)`, and
a successful response yields `(True, b)` with `b` true exactly when the
version string is a member of the supported-version list. -/
theorem C4_checkConnection (supported : List String)
    (net : Nat → Except PyError Response) :
    (withRetries net 0 0).1 = 1 ∧
    (∀ e, net 0 = .error e → e.isConnectionError = true →
      checkConnection supported net = .ok (false, none)) ∧
    (∀ resp, net 0 = .ok resp →
      checkConnection supported net =
        .ok (true, some (supported.contains resp.text)) ∧
      (supported.contains resp.text = true ↔ resp.text ∈ supported)) := by
  refine ⟨?_, ?_, ?_⟩
  · unfold withRetries
    cases h : net 0 with
    | error e => by_cases hc : e.isConnectionError = true <;> simp [hc]
    | ok a => simp
  · intro e h1 h2
    simp [checkConnection, getVersionRun, withRetries, h1, h2]
  · intro resp h
    refine ⟨?_, List.elem_iff⟩
    simp [checkConnection, getVersionRun, withRetries, h]

/-- Claim C4 witness: against a network that answers version `"1.19.2"`,
`checkConnection` with supported list `["1.19.2"]` reports
`(True, True)`; against a network that refuses the connection it reports
`(False, None)`. -/
theorem C4_checkConnection_witness :
    checkConnection ["1.19.2"]
      (fun _ => .ok ⟨200, "1.19.2", none, []⟩) = .ok (true, some true) ∧
    checkConnection ["1.19.2"]
      (fun _ => .error (.connectionError "refused")) = .ok (false, none) := by
  refine ⟨?_, ?_⟩
  · exact ((C4_checkConnection ["1.19.2"] _).2.2 ⟨200, "1.19.2", none, []⟩
      rfl).1
  · exact (C4_checkConnection ["1.19.2"] _).2.1 (.connectionError "refused")
      rfl rfl

/-- Splitting on newline yields one more field than there are newline
characters, regardless of the accumulator. -/
lemma splitLinesAux_length : ∀ (cs : List Char) (acc : List Char),
    (splitLinesAux cs acc).length = cs.count '\n' + 1 := by
  intro cs
  induction cs with
  | nil => intro acc; simp [splitLinesAux]
  | cons c cs ih =>
    intro acc
    by_cases h : c = '\n'
    · subst h
      simp [splitLinesAux, ih, List.count_cons]
    · simp [splitLinesAux, h, ih, List.count_cons]

/-- Claim C5 (amended): `placeBlock` and `runCommand` return one result
string per newline-separated line of the server's response text — one more
string than the response has newline characters. This equals the number of
input lines exactly when the response has as many newlines as the input
string. -/
theorem C5_resultCountMatchesResponseLines (blockStr : String)
    (r rc : Response) :
    (placeBlockDecode r).length = (pySplitNL r.text).length ∧
    (runCommandDecode rc).length = (pySplitNL rc.text).length ∧
    (placeBlockDecode r).length = r.text.data.count '\n' + 1 ∧
    (runCommandDecode rc).length = rc.text.data.count '\n' + 1 ∧
    ((placeBlockDecode r).length = (pySplitNL blockStr).length ↔
      r.text.data.count '\n' = blockStr.data.count '\n') := by
  refine ⟨rfl, rfl, ?_, ?_, ?_⟩
  · exact splitLinesAux_length r.text.data []
  · exact splitLinesAux_length rc.text.data []
  · rw [show (placeBlockDecode r).length = r.text.data.count '\n' + 1 from
      splitLinesAux_length r.text.data [],
      show (pySplitNL blockStr).length = blockStr.data.count '\n' + 1 from
      splitLinesAux_length blockStr.data []]
    omega

/-- Claim C5 counterexample: `placeBlock` called with the single-line block
string `"stone"` returns two result strings when the server responds with
the two-line text `"1\x0a0"` — the result count follows the response, not
the input. -/
theorem C5_counterexample :
    ¬ (((placeBlockM {} 0 0 0 "stone" none true false ""
        ⟨200, "1\n0", none, []⟩).1.2).length =
      (pySplitNL "stone").length) := by
  decide

/-- Claim C7: `getChunks` sets the Accept header to
`application/octet-stream` when `asBytes` and to `text/plain` otherwise,
returns the raw content bytes respectively the decoded text, and on a
status of 400 or above prints the error to standard error while still
returning the received body. -/
theorem C7_getChunks (self : HTTPInterface) (x z dx dz : Int)
    (dim : Option String) (asBytes : Bool) (r : Response) :
    (getChunksRequest self x z dx dz dim true).headers =
      [("Accept", "application/octet-stream")] ∧
    (getChunksRequest self x z dx dz dim false).headers =
      [("Accept", "text/plain")] ∧
    (getChunksDecode true r).2 = .inl r.content ∧
    (getChunksDecode false r).2 = .inr r.text ∧
    (400 ≤ r.statusCode →
      getChunksDecode asBytes r =
        (some ("Error: " ++ r.text),
         if asBytes then .inl r.content else .inr r.text)) ∧
    (r.statusCode < 400 → (getChunksDecode asBytes r).1 = none) := by
  refine ⟨rfl, rfl, rfl, rfl, ?_, ?_⟩
  · intro h
    simp [getChunksDecode, h]
  · intro h
    simp [getChunksDecode, Nat.not_le.mpr h]

/-- Claim C7 witness: a concrete 500 response is logged to standard error
and its body is still returned, both as bytes and as text. -/
theorem C7_getChunks_witness :
    (getChunksRequest {} 0 0 1 1 none true).headers =
      [("Accept", "application/octet-stream")] ∧
    (getChunksRequest {} 0 0 1 1 none false).headers =
      [("Accept", "text/plain")] ∧
    (getChunksDecode true ⟨500, "boom", none, [1, 2]⟩).2 = .inl [1, 2] ∧
    (getChunksDecode false ⟨500, "boom", none, [1, 2]⟩).2 = .inr "boom" ∧
    getChunksDecode true ⟨500, "boom", none, [1, 2]⟩ =
      (some ("Error: " ++ "boom"),
       if true then .inl [1, 2] else .inr "boom") := by
  have h := C7_getChunks {} 0 0 1 1 none true ⟨500, "boom", none, [1, 2]⟩
  exact ⟨h.1, h.2.1, h.2.2.1, h.2.2.2.1, h.2.2.2.2.1 (by decide)⟩

/-- Claim C10: `placeBlock` sends `customFlags` (and neither
`doBlockUpdates` nor `spawnDrops`) when `customFlags` is non-empty, and
sends `doBlockUpdates` and `spawnDrops` with the caller's values (and no
`customFlags`) when it is empty. -/
theorem C10_placeBlockFlagParams (self : HTTPInterface) (x y z : Int)
    (blockStr : String) (dim : Option String)
    (doBlockUpdates spawnDrops : Bool) (customFlags : String) :
    (customFlags ≠ "" →
      ("customFlags", PValue.str customFlags) ∈
        sentParams (placeBlockRequest self x y z blockStr dim
          doBlockUpdates spawnDrops customFlags).params ∧
      (∀ v, ("doBlockUpdates", v) ∈
        sentParams (placeBlockRequest self x y z blockStr dim
          doBlockUpdates spawnDrops customFlags).params → False) ∧
      (∀ v, ("spawnDrops", v) ∈
        sentParams (placeBlockRequest self x y z blockStr dim
          doBlockUpdates spawnDrops customFlags).params → False)) ∧
    (customFlags = "" →
      ("doBlockUpdates", PValue.bool doBlockUpdates) ∈
        sentParams (placeBlockRequest self x y z blockStr dim
          doBlockUpdates spawnDrops customFlags).params ∧
      ("spawnDrops", PValue.bool spawnDrops) ∈
        sentParams (placeBlockRequest self x y z blockStr dim
          doBlockUpdates spawnDrops customFlags).params ∧
      (∀ v, ("customFlags", v) ∈
        sentParams (placeBlockRequest self x y z blockStr dim
          doBlockUpdates spawnDrops customFlags).params → False)) := by
  constructor
  · intro h
    refine ⟨?_, ?_, ?_⟩
    · simp [placeBlockRequest, sentParams, h]
    · intro v hv
      simp [placeBlockRequest, sentParams, h] at hv
    · intro v hv
      simp [placeBlockRequest, sentParams, h] at hv
  · intro h
    subst h
    refine ⟨?_, ?_, ?_⟩
    · simp [placeBlockRequest, sentParams]
    · simp [placeBlockRequest, sentParams]
    · intro v hv
      simp [placeBlockRequest, sentParams] at hv

/-- Claim C10 witness: with `customFlags` set to `"0x30"` the flag
parameter is sent, and with it empty the two boolean parameters are sent. -/
theorem C10_placeBlockFlagParams_witness :
    ("customFlags", PValue.str "0x30") ∈
      sentParams (placeBlockRequest {} 1 2 3 "stone" none true false
        "0x30").params ∧
    ("doBlockUpdates", PValue.bool true) ∈
      sentParams (placeBlockRequest {} 1 2 3 "stone" none true false
        "").params ∧
    ("spawnDrops", PValue.bool false) ∈
      sentParams (placeBlockRequest {} 1 2 3 "stone" none true false
        "").params :=
  ⟨((C10_placeBlockFlagParams {} 1 2 3 "stone" none true false "0x30").1
      (by decide)).1,
   ((C10_placeBlockFlagParams {} 1 2 3 "stone" none true false "").2
      rfl).1,
   ((C10_placeBlockFlagParams {} 1 2 3 "stone" none true false "").2
      rfl).2.1⟩

end Gdpc
